import Mathlib

/-!
# Verification of the CA-Final query-routing backend (`src/main.py`)

Shallow embedding of the query-processing pipeline of `main.py`:
the command-filter table, hashtag variant expansion, the fuzzy tag
matcher, and the `/process-query` endpoint `process_query_api`.

External collaborators (TextBlob spelling correction, the OpenAI
rewriter, the Weaviate backend, spaCy tokenisation, the rapidfuzz
similarity scorer, and the wall clock used for audit timestamps) are
modelled as parameters of an `Env` record; fallible external calls are
modelled with `Except`, where `Except.error` stands for the Python call
raising an exception.  Python strings are modelled through their
character lists; every string method used by the source
(`lower`, `strip`, `replace` with one-character patterns, `isdigit`,
`int(...)`, the `{:,}` thousands format, `startswith`, slicing,
substring `in`) is given an executable Lean counterpart below.
-/

set_option maxRecDepth 8192

/-- Python `str.lower()` (the source only feeds it ASCII text). -/
def pyLower (s : String) : String := ⟨s.data.map Char.toLower⟩

/-- Python `str.strip()`: remove leading and trailing whitespace. -/
def pyStrip (s : String) : String :=
  ⟨((s.data.dropWhile Char.isWhitespace).reverse.dropWhile Char.isWhitespace).reverse⟩

/-- Python `str.replace(c, r)` for a one-character pattern `c`; every
`replace` call in `main.py` uses a one-character pattern. -/
def pyReplace (c : Char) (r : String) (s : String) : String :=
  ⟨s.data.flatMap (fun x => if x == c then r.data else [x])⟩

/-- Contiguous-sublist test on character lists. -/
def listInfix (needle : List Char) : List Char → Bool
  | [] => needle.isEmpty
  | c :: t => needle.isPrefixOf (c :: t) || listInfix needle t

/-- Python `needle in hay` on strings: substring containment. -/
def pyIn (needle hay : String) : Bool := listInfix needle.data hay.data

/-- Python `str.isdigit()` (restricted to ASCII digits, as in the data). -/
def pyIsDigit (s : String) : Bool := !s.data.isEmpty && s.data.all Char.isDigit

/-- Python `int(s)` on a digit string. -/
def pyInt (s : String) : Nat := s.data.foldl (fun acc c => acc * 10 + (c.toNat - 48)) 0

/-- Helper for the `{:,}` format: walking the digit list least-significant
first, insert a comma before every third digit. -/
def commasRev : Nat → List Char → List Char
  | _, [] => []
  | i, c :: rest =>
    if 0 < i && i % 3 == 0 then ',' :: c :: commasRev (i + 1) rest
    else c :: commasRev (i + 1) rest

/-- Python `f"{n:,}"`: decimal rendering with thousands separators. -/
def pyThousands (n : Nat) : String :=
  ⟨(commasRev 0 (Nat.toDigits 10 n).reverse).reverse⟩

/-- Python `s.startswith("#")`. -/
def startsHash (s : String) : Bool := s.data.head? == some '#'

/-- Python `s[1:]`. -/
def strTail (s : String) : String := ⟨s.data.drop 1⟩

/-- Count the maximal non-whitespace runs; the flag records whether the
scan is currently inside a word. -/
def countWords : Bool → List Char → Nat
  | _, [] => 0
  | inWord, c :: rest =>
    if c.isWhitespace then countWords false rest
    else (if inWord then 0 else 1) + countWords true rest

/-- Python `len(s.split())`: number of whitespace-separated words.  (Used
only to state word-count properties; `main.py` itself never counts words.) -/
def wordCount (s : String) : Nat := countWords false s.data

/-- Python `set.add`: sets of strings are modelled as duplicate-free lists
in insertion order. -/
def setAdd (l : List String) (x : String) : List String :=
  if x ∈ l then l else l ++ [x]

/-- `expand_variants` from `main.py` (lines 111–125): lowercase and strip
the term, add the comma-stripped form, a thousands-separated form when the
comma-stripped form is purely numeric, the hyphen-to-space form, the
space-to-hyphen form, and the all-separators-removed form. -/
def expand_variants (term0 : String) : List String :=
  let term := pyStrip (pyLower term0)
  let term_nocomma := pyReplace ',' "" term
  let v0 := setAdd (setAdd [] term) term_nocomma
  let v1 := if pyIsDigit term_nocomma then setAdd v0 (pyThousands (pyInt term_nocomma)) else v0
  let v2 := setAdd v1 (pyReplace '-' " " term)
  let v3 := setAdd v2 (pyReplace ' ' "-" term)
  setAdd v3 (pyReplace ' ' "" (pyReplace '-' "" term))

/-- The static command-filter table of `main.py` (lines 79–91). -/
def command_filters : List (String × List String) :=
  [("%example", ["example"]),
   ("%illustration", ["illustration"]),
   ("%testyourknowledge", ["test your knowledge"]),
   ("%tyk", ["test your knowledge"]),
   ("%mtp", ["mtp"]),
   ("%modelquestionpaper", ["mtp"]),
   ("%rtp", ["rtp"]),
   ("%revisiontestpaper", ["rtp"]),
   ("%pastpapers", ["past papers"]),
   ("%other", ["other"]),
   ("%all", ["example", "illustration", "test your knowledge", "mtp", "rtp", "past papers", "other"])]

example : expand_variants "1,250" = ["1,250", "1250"] := by decide

example : expand_variants "1250" = ["1250", "1,250"] := by decide

example : expand_variants "1-250" = ["1-250", "1 250", "1250"] := by decide

/-- The properties of a Weaviate object of class `FR_Inventories`, as read
by `main.py` (`o.properties.get(...)`). -/
structure QuestionRecord where
  question : String
  answer : String
  howToApproach : String
  chapter : String
  conceptTested : String
  conceptSummary : String
  sourceDetails : String
  sourceType : String
  tags : List String
  combinedText : String
deriving DecidableEq

/-- The key list every return site of `process_query_api` projects a
record onto. -/
def projKeys : List String :=
  ["chapter", "sourceDetails", "sourceType", "conceptTested", "conceptSummary",
   "question", "answer", "howToApproach"]

/-- The dict comprehension `{key: o.properties.get(key) for key in [...]}`
used at all four return sites of `process_query_api`. -/
def project (o : QuestionRecord) : List (String × String) :=
  [("chapter", o.chapter), ("sourceDetails", o.sourceDetails),
   ("sourceType", o.sourceType), ("conceptTested", o.conceptTested),
   ("conceptSummary", o.conceptSummary), ("question", o.question),
   ("answer", o.answer), ("howToApproach", o.howToApproach)]

/-- Descending-score order on (tag, score) pairs, used to model
`rapidfuzz.process.extract` returning the best-scoring candidates first. -/
def extRel : (String × Nat) → (String × Nat) → Prop := fun a b => b.2 ≤ a.2

instance : DecidableRel extRel := fun a b => Nat.decLe b.2 a.2

instance : IsTotal (String × Nat) extRel := ⟨fun a b => Nat.le_total b.2 a.2⟩

instance : IsTrans (String × Nat) extRel :=
  ⟨fun _ _ _ hab hbc => Nat.le_trans hbc hab⟩

/-- All (tag, score) candidates for one term, best score first (stable). -/
def candidates (sim : String → String → Nat) (term : String)
    (tags : List String) : List (String × Nat) :=
  (tags.map (fun t => (t, sim term t))).insertionSort extRel

/-- `rapidfuzz.process.extract(term, tags, limit)`: the `limit`
best-scoring candidates, scored by the similarity oracle `sim`
(0–100 scale). -/
def extract (sim : String → String → Nat) (term : String)
    (tags : List String) (limit : Nat) : List (String × Nat) :=
  (candidates sim term tags).take limit

/-- `fuzzy_terms_match` from `main.py` (lines 127–132): for each term take
the 3 best candidates, keep those scoring at least `threshold`, collect
across terms, and return `list(set(results))` (modelled as first-occurrence
deduplication; Python's set order is unspecified). -/
def fuzzy_terms_match (sim : String → String → Nat)
    (query_terms all_tags : List String) (threshold : Nat) : List String :=
  (query_terms.flatMap (fun term =>
    ((extract sim term all_tags 3).filter (fun m => threshold ≤ m.2)).map Prod.fst)).dedup

/-- The external collaborators of `main.py`, plus the backend store.
`correct_spelling` is TextBlob, `rewrite_query` the OpenAI call
(`Except.error` = the call raised), `near_text` the Weaviate
`near_text(query=…, distance=0.7, limit=10)` call (`Except.error` = the
call raised), `normalize_tokens` the spaCy lemma/stop-word pipeline,
`sim` the rapidfuzz scorer, and `objects` the stored collection. -/
structure Env where
  correct_spelling : String → String
  rewrite_query : String → Except String String
  near_text : String → Except String (List QuestionRecord)
  normalize_tokens : String → List String
  sim : String → String → Nat
  objects : List QuestionRecord

/-- One row appended to `query_log.csv` by `log_query` (the timestamp
column is the wall clock, an external collaborator, and is omitted). -/
structure AuditEntry where
  original : String
  rewritten : String
  method : String
  count : Nat
deriving DecidableEq

/-- How one invocation of the endpoint terminates: a normal JSON response,
`raise HTTPException(status, detail)`, or an exception escaping the
handler uncaught. -/
inductive ApiOutcome where
  | ok (method : String) (rewritten : Option String)
      (results : List (List (String × String)))
  | httpError (status : Nat) (detail : String)
  | uncaught (detail : String)
deriving DecidableEq

/-- Observable effects of one invocation: the outcome, the audit rows
appended by `log_query`, and traces of whether the rewriter and the
semantic (`near_text`) backend call were reached. -/
structure PipelineResult where
  outcome : ApiOutcome
  audit : List AuditEntry
  rewriteCalled : Bool
  semCalled : Bool
deriving DecidableEq

/-- The `%`-command branch of `process_query_api` (lines 170–181): keep
records whose `sourceDetails` contains any mapped keyword
(case-insensitively), project them, return without logging. -/
def directBranch (env : Env) (fs : List String) : PipelineResult :=
  let all_objs := env.objects.take 1000
  let results := (all_objs.filter (fun o =>
      fs.any (fun f => pyIn f (pyLower o.sourceDetails)))).map project
  ⟨.ok "Direct Filter" none results, [], false, false⟩

/-- The normalisation `.replace("-", " ").replace(",", "")` applied in the
hashtag branch both to the stored question text (after lowercasing) and
to each variant. -/
def hashNorm (s : String) : String := pyReplace ',' "" (pyReplace '-' " " s)

/-- The `#`-command branch (lines 184–197): spell-correct the tail, expand
variants, keep records whose normalised question text contains any
normalised variant, project them, return without logging. -/
def hashtagBranch (env : Env) (raw : String) : PipelineResult :=
  let term := env.correct_spelling (strTail raw)
  let variants := expand_variants term
  let all_objs := env.objects.take 1000
  let results := (all_objs.filter (fun o =>
      variants.any (fun v => pyIn (hashNorm v) (hashNorm (pyLower o.question))))).map project
  ⟨.ok "Hashtag" none results, [], false, false⟩

/-- The record set the fuzzy-fallback branch filters to (lines 221–225):
records whose tag set meets the fuzzy-matched tags for the spaCy tokens of
the (corrected) query, over the deduplicated tag universe. -/
def fuzzyFiltered (env : Env) (raw : String) : List QuestionRecord :=
  let all_objs := env.objects.take 1000
  let tagsU := (all_objs.flatMap (fun o => o.tags)).dedup
  let matched := fuzzy_terms_match env.sim (env.normalize_tokens raw) tagsU 80
  all_objs.filter (fun o => o.tags.any (fun t => matched.contains t))

/-- The fuzzy-fallback / no-match tail of the endpoint (lines 220–237):
log `Fuzzy` with the pre-truncation count and return the first 10 matches,
or log `No Match` with count 0 and return no matches. -/
def fuzzyBranch (env : Env) (raw rewritten : String) : PipelineResult :=
  let filtered := fuzzyFiltered env raw
  if filtered.isEmpty then
    ⟨.ok "No Match" (some rewritten) [], [⟨raw, rewritten, "No Match", 0⟩], true, true⟩
  else
    ⟨.ok "Fuzzy" (some rewritten) ((filtered.take 10).map project),
     [⟨raw, rewritten, "Fuzzy", filtered.length⟩], true, true⟩

/-- The semantic-search step (lines 204–217): on a backend exception,
`raise HTTPException(500, "Semantic search failed: …")`; on results,
log `Semantic` and return them projected; on an empty result, fall
through to the fuzzy branch. -/
def semBranch (env : Env) (raw rewritten : String) : PipelineResult :=
  match env.near_text rewritten with
  | .error e => ⟨.httpError 500 ("Semantic search failed: " ++ e), [], true, true⟩
  | .ok objs =>
    if objs.isEmpty then fuzzyBranch env raw rewritten
    else
      ⟨.ok "Semantic" (some rewritten) (objs.map project),
       [⟨raw, rewritten, "Semantic", objs.length⟩], true, true⟩

/-- Lines 200–201: spell-correct the (already corrected) query again and
call the rewriter; an exception from the rewriter escapes the handler
uncaught.  On success, continue with the semantic step. -/
def rewriteStep (env : Env) (raw : String) : PipelineResult :=
  match env.rewrite_query (env.correct_spelling raw) with
  | .error e => ⟨.uncaught e, [], true, false⟩
  | .ok rewritten => semBranch env raw rewritten

/-- Lines 159–167: the effective query, `raw_query`, after the initial
`strip` and the unconditional TextBlob correction applied to every
incoming query. -/
def rawOf (env : Env) (q : String) : String := env.correct_spelling (pyStrip q)

/-- `process_query_api` from `main.py` (lines 157–237): strip and
spell-correct the query, then dispatch on the command-filter table, the
`#` prefix, and otherwise the rewrite/semantic/fuzzy cascade. -/
def process_query_api (env : Env) (q : String) : PipelineResult :=
  match command_filters.lookup (pyLower (rawOf env q)) with
  | some fs => directBranch env fs
  | none =>
    if startsHash (rawOf env q) then hashtagBranch env (rawOf env q)
    else rewriteStep env (rawOf env q)

/-- The method string of a normal JSON response, if any. -/
def okMethod : ApiOutcome → Option String
  | .ok m _ _ => some m
  | _ => none

/-- The `matches` list of a normal JSON response (empty for error outcomes). -/
def okMatches : ApiOutcome → List (List (String × String))
  | .ok _ _ ms => ms
  | _ => []

lemma process_eq_direct (env : Env) (q : String) (fs : List String)
    (h : command_filters.lookup (pyLower (rawOf env q)) = some fs) :
    process_query_api env q = directBranch env fs := by
  unfold process_query_api
  rw [h]

lemma process_eq_hashtag (env : Env) (q : String)
    (h : command_filters.lookup (pyLower (rawOf env q)) = none)
    (hh : startsHash (rawOf env q) = true) :
    process_query_api env q = hashtagBranch env (rawOf env q) := by
  unfold process_query_api
  rw [h, hh]
  rfl

lemma process_eq_rewrite (env : Env) (q : String)
    (h : command_filters.lookup (pyLower (rawOf env q)) = none)
    (hh : startsHash (rawOf env q) = false) :
    process_query_api env q = rewriteStep env (rawOf env q) := by
  unfold process_query_api
  rw [h, hh]
  rfl

lemma mem_candidates {sim : String → String → Nat} {term : String}
    {tags : List String} {p : String × Nat} :
    p ∈ candidates sim term tags ↔ p ∈ tags.map (fun t => (t, sim term t)) :=
  (List.perm_insertionSort extRel _).mem_iff

lemma mem_extract {sim : String → String → Nat} {term : String}
    {tags : List String} {n : Nat} {p : String × Nat}
    (hp : p ∈ extract sim term tags n) :
    p.1 ∈ tags ∧ p.2 = sim term p.1 := by
  have hc : p ∈ candidates sim term tags := List.mem_of_mem_take hp
  obtain ⟨t, ht, hpt⟩ := List.mem_map.mp (mem_candidates.mp hc)
  cases hpt
  exact ⟨ht, rfl⟩

lemma extract_length_le (sim : String → String → Nat) (term : String)
    (tags : List String) (n : Nat) : (extract sim term tags n).length ≤ n := by
  simp [extract, List.length_take_le]

lemma extract_best {sim : String → String → Nat} {term : String}
    {tags : List String} {n : Nat} {p q : String × Nat}
    (hp : p ∈ extract sim term tags n)
    (hq : q ∈ (candidates sim term tags).drop n) : q.2 ≤ p.2 := by
  have hs : List.Pairwise extRel (candidates sim term tags) :=
    List.sorted_insertionSort extRel _
  rw [← List.take_append_drop n (candidates sim term tags)] at hs
  exact (List.pairwise_append.mp hs).2.2 p hp q hq

/-- A stored record whose `sourceDetails` marks it as a
test-your-knowledge question. -/
def recTyk : QuestionRecord :=
  ⟨"State the disclosure requirements for inventories", "See Ind AS 2",
   "Apply the standard", "Inventories", "Disclosures",
   "Disclosure of inventory policies", "Test Your Knowledge 3", "test",
   ["inventory"], "combined text"⟩

/-- A stored record whose question text contains the literal `1-250`. -/
def recQ : QuestionRecord :=
  ⟨"Pay 1-250 rupees as advance", "Answer body", "Approach", "Chapter 1",
   "Numbers", "Number ranges", "Illustration 7", "numerical", [], "ct"⟩

/-- A stored record tagged `inventory`, `sourceDetails` an example. -/
def recD : QuestionRecord :=
  ⟨"Valuation of inventories?", "Answer A", "Approach A", "Ch 2",
   "Valuation", "Summary", "Example 5", "conceptual", ["inventory"], "ct"⟩

/-- A second record with the same question text as `recD` but a different
answer and source. -/
def recD2 : QuestionRecord :=
  ⟨"Valuation of inventories?", "Answer B", "Approach B", "Ch 2",
   "Valuation", "Summary", "Illustration 2", "numerical", ["inventory"], "ct"⟩

/-- An environment with identity spelling correction, constant rewriter
and backend behaviour, constant tokenisation, and exact-match similarity. -/
def constEnv (objs : List QuestionRecord) (rwr : Except String String)
    (nt : Except String (List QuestionRecord)) (toks : List String) : Env :=
  ⟨id, fun _ => rwr, fun _ => nt, fun _ => toks,
   fun a b => if a == b then 100 else 0, objs⟩

def envC1 : Env := constEnv [] (.ok "rewritten academic query") (.error "boom") []

def envC2 : Env := constEnv [recD] (.ok "x") (.ok []) []

def envC3 : Env := constEnv [recD] (.ok "short text") (.ok [recD]) []

/-- An environment whose spelling corrector maps the typo `%tyj` to the
command `%tyk` and leaves everything else unchanged. -/
def envC4 : Env :=
  ⟨fun s => if s == "%tyj" then "%tyk" else s, fun _ => .ok "x",
   fun _ => .ok [], fun _ => [], fun _ _ => 0, [recTyk]⟩

def envId4 : Env := constEnv [recTyk] (.ok "x") (.ok []) []

def envC5 : Env := constEnv [recQ] (.ok "x") (.ok []) []

def envC6 : Env := constEnv [recD, recD2] (.ok "rw text") (.ok []) ["inventory"]

def envC7 : Env := constEnv [] (.error "rate limited") (.ok []) []

def envC9 : Env := constEnv (List.replicate 11 recD) (.ok "rw text") (.ok []) ["inventory"]

def envC10 : Env := constEnv [recD] (.ok "x") (.ok []) []

/-- A concrete similarity oracle: 100 on equal strings, 57 otherwise. -/
def simW : String → String → Nat := fun a b => if a == b then 100 else 57

/-- C8: for every list of input terms and every tag universe, the fuzzy
tag matcher considers approximate similarity of each term against the
universe, retains at most 3 best candidates per term, keeps only
candidates with similarity at or above the threshold, unions the kept
candidates across all terms, and returns them deduplicated.
Clause 1: the output has no duplicates.  Clause 2: every output tag is,
for some input term, one of the (at most 3) retained candidates for that
term, belongs to the universe, and scores at least the threshold under
the similarity oracle.  Clause 3: conversely every retained
above-threshold candidate of every term reaches the output (union across
terms).  Clause 4: at most 3 candidates are retained per term.
Clause 5: the retained candidates for a term are best ones — every
non-retained candidate scores no higher. -/
theorem C8_fuzzy_matcher_contract (sim : String → String → Nat)
    (terms tags : List String) (th : Nat) :
    (fuzzy_terms_match sim terms tags th).Nodup ∧
    (∀ x ∈ fuzzy_terms_match sim terms tags th, ∃ term ∈ terms,
      th ≤ sim term x ∧ x ∈ tags ∧ (x, sim term x) ∈ extract sim term tags 3) ∧
    (∀ term ∈ terms, ∀ p ∈ extract sim term tags 3,
      th ≤ p.2 → p.1 ∈ fuzzy_terms_match sim terms tags th) ∧
    (∀ term, (extract sim term tags 3).length ≤ 3) ∧
    (∀ term, ∀ p ∈ extract sim term tags 3,
      ∀ q ∈ (candidates sim term tags).drop 3, q.2 ≤ p.2) := by
  refine ⟨List.nodup_dedup _, ?_, ?_, fun term => extract_length_le sim term tags 3,
    fun term p hp q hq => extract_best hp hq⟩
  · intro x hx
    rw [fuzzy_terms_match, List.mem_dedup] at hx
    obtain ⟨term, hterm, hx⟩ := List.mem_flatMap.mp hx
    obtain ⟨p, hp, hpx⟩ := List.mem_map.mp hx
    obtain ⟨hpe, hth⟩ := List.mem_filter.mp hp
    obtain ⟨htag, hsim⟩ := mem_extract hpe
    subst hpx
    exact ⟨term, hterm, by simpa [← hsim] using of_decide_eq_true hth, htag,
      by rwa [← hsim]⟩
  · intro term hterm p hp hth
    rw [fuzzy_terms_match, List.mem_dedup]
    exact List.mem_flatMap.mpr ⟨term, hterm,
      List.mem_map.mpr ⟨p, List.mem_filter.mpr ⟨hp, decide_eq_true hth⟩, rfl⟩⟩

/-- Witness for C8 at a concrete similarity oracle, term list and tag
universe: the matcher keeps `ind as` (score 100 ≥ 80) and the output is
duplicate-free. -/
theorem C8_fuzzy_matcher_contract_witness :
    (fuzzy_terms_match simW ["ind as"] ["ind as", "ifrs"] 80).Nodup ∧
    ("ind as" ∈ fuzzy_terms_match simW ["ind as"] ["ind as", "ifrs"] 80 ∧
      ∃ term ∈ ["ind as"], 80 ≤ simW term "ind as" ∧ "ind as" ∈ ["ind as", "ifrs"] ∧
        ("ind as", simW term "ind as") ∈ extract simW term ["ind as", "ifrs"] 3) :=
  ⟨(C8_fuzzy_matcher_contract simW ["ind as"] ["ind as", "ifrs"] 80).1,
   by decide,
   (C8_fuzzy_matcher_contract simW ["ind as"] ["ind as", "ifrs"] 80).2.1 "ind as" (by decide)⟩

/-- C1 (counterexample): at a concrete query reaching the semantic step
whose backend call fails, the router does not return a response at all —
the handler terminates by `raise HTTPException(500, …)`, so no method, no
(empty) result set and no audit row reach the caller path the claim
describes. -/
theorem C1_backend_error_counterexample :
    (process_query_api envC1 "explain goodwill").outcome =
      ApiOutcome.httpError 500 "Semantic search failed: boom" ∧
    okMethod (process_query_api envC1 "explain goodwill").outcome = none ∧
    okMatches (process_query_api envC1 "explain goodwill").outcome = [] ∧
    (process_query_api envC1 "explain goodwill").audit = [] := by
  decide

/-- C1 (amended): for every query whose processing reaches the
semantic-search step and whose retrieval-backend call fails, the router
catches the raw backend exception but re-raises it as an
`HTTPException` with status 500 and detail `Semantic search failed: …`;
it returns no JSON response (empty-result or otherwise) and logs no
audit row. -/
theorem C1_backend_error_amended (env : Env) (q rw e : String)
    (hlk : command_filters.lookup (pyLower (rawOf env q)) = none)
    (hh : startsHash (rawOf env q) = false)
    (hrw : env.rewrite_query (env.correct_spelling (rawOf env q)) = .ok rw)
    (hnt : env.near_text rw = .error e) :
    (process_query_api env q).outcome =
      ApiOutcome.httpError 500 ("Semantic search failed: " ++ e) ∧
    (process_query_api env q).audit = [] ∧
    (process_query_api env q).semCalled = true := by
  rw [process_eq_rewrite env q hlk hh]
  simp [rewriteStep, hrw, semBranch, hnt]

/-- Witness for C1 (amended) at `envC1` and the query
`explain goodwill`. -/
theorem C1_backend_error_amended_witness :
    (process_query_api envC1 "explain goodwill").outcome =
      ApiOutcome.httpError 500 ("Semantic search failed: " ++ "boom") ∧
    (process_query_api envC1 "explain goodwill").audit = [] ∧
    (process_query_api envC1 "explain goodwill").semCalled = true :=
  C1_backend_error_amended envC1 "explain goodwill" "rewritten academic query"
    "boom" (by decide) (by decide) rfl rfl

/-- C2 (counterexample): the invocation `%tyk` takes the Direct Filter
branch and appends no audit row at all, refuting "exactly one Audit
Entry per invocation regardless of branch". -/
theorem C2_audit_counterexample :
    okMethod (process_query_api envC2 "%tyk").outcome = some "Direct Filter" ∧
    (process_query_api envC2 "%tyk").audit = [] := by
  decide

lemma exceptEq {β : Type} (e : Except String β) :
    (∃ m, e = .error m) ∨ (∃ v, e = .ok v) := by
  cases e with
  | error m => exact Or.inl ⟨m, rfl⟩
  | ok v => exact Or.inr ⟨v, rfl⟩

lemma auditLen_fuzzy (env : Env) (raw rw : String) :
    (fuzzyBranch env raw rw).audit.length =
      (if okMethod (fuzzyBranch env raw rw).outcome ∈
          ([some "Semantic", some "Fuzzy", some "No Match"] : List (Option String))
        then 1 else 0) := by
  rcases Bool.eq_false_or_eq_true (fuzzyFiltered env raw).isEmpty with h | h <;>
    simp [fuzzyBranch, h, okMethod]

lemma auditLen_sem (env : Env) (raw rw : String) :
    (semBranch env raw rw).audit.length =
      (if okMethod (semBranch env raw rw).outcome ∈
          ([some "Semantic", some "Fuzzy", some "No Match"] : List (Option String))
        then 1 else 0) := by
  rcases exceptEq (env.near_text rw) with ⟨m, hm⟩ | ⟨objs, hobjs⟩
  · simp [semBranch, hm, okMethod]
  · rcases Bool.eq_false_or_eq_true objs.isEmpty with he | he
    · rcases Bool.eq_false_or_eq_true (fuzzyFiltered env raw).isEmpty with hf | hf <;>
        simp [semBranch, hobjs, he, fuzzyBranch, hf, okMethod]
    · simp [semBranch, hobjs, he, okMethod]

lemma auditLen_rewrite (env : Env) (raw : String) :
    (rewriteStep env raw).audit.length =
      (if okMethod (rewriteStep env raw).outcome ∈
          ([some "Semantic", some "Fuzzy", some "No Match"] : List (Option String))
        then 1 else 0) := by
  rcases exceptEq (env.rewrite_query (env.correct_spelling raw)) with ⟨m, hm⟩ | ⟨rw, hrw⟩
  · simp [rewriteStep, hm, okMethod]
  · simp only [rewriteStep, hrw]
    exact auditLen_sem env raw rw

/-- C2 (amended): one invocation appends exactly one audit row when it
ends in the Semantic, Fuzzy or No Match branch, and appends none in the
Direct Filter and Hashtag branches and on the rewriter-failure and
semantic-failure error paths. -/
theorem C2_audit_amended (env : Env) (q : String) :
    (process_query_api env q).audit.length =
      (if okMethod (process_query_api env q).outcome ∈
          ([some "Semantic", some "Fuzzy", some "No Match"] : List (Option String))
        then 1 else 0) := by
  rcases Option.eq_none_or_eq_some
      (command_filters.lookup (pyLower (rawOf env q))) with hlk | ⟨fs, hlk⟩
  · rcases Bool.eq_false_or_eq_true (startsHash (rawOf env q)) with hh | hh
    · rw [process_eq_hashtag env q hlk hh]
      simp [hashtagBranch, okMethod]
    · rw [process_eq_rewrite env q hlk hh]
      exact auditLen_rewrite env (rawOf env q)
  · rw [process_eq_direct env q fs hlk]
    simp [directBranch, okMethod]

/-- C3 (counterexample): with a rewriter that returns the 2-word text
`short text`, the router still issues the semantic backend call and even
answers through the Semantic branch — there is no fewer-than-4-words skip
and no jump to the Fuzzy branch. -/
theorem C3_short_rewrite_counterexample :
    wordCount "short text" < 4 ∧
    (process_query_api envC3 "explain goodwill").semCalled = true ∧
    okMethod (process_query_api envC3 "explain goodwill").outcome = some "Semantic" := by
  decide

/-- C3 (amended): for every query that reaches the rewriting step and
whose rewriter call succeeds, the router always issues the semantic
backend call, whatever the word count of the rewritten text; no
word-count check exists. -/
theorem C3_semantic_always_called (env : Env) (q rw : String)
    (hlk : command_filters.lookup (pyLower (rawOf env q)) = none)
    (hh : startsHash (rawOf env q) = false)
    (hrw : env.rewrite_query (env.correct_spelling (rawOf env q)) = .ok rw) :
    (process_query_api env q).semCalled = true := by
  rw [process_eq_rewrite env q hlk hh]
  simp only [rewriteStep, hrw]
  rcases exceptEq (env.near_text rw) with ⟨m, hm⟩ | ⟨objs, hobjs⟩
  · simp [semBranch, hm]
  · rcases Bool.eq_false_or_eq_true objs.isEmpty with he | he
    · rcases Bool.eq_false_or_eq_true (fuzzyFiltered env (rawOf env q)).isEmpty with hf | hf <;>
        simp [semBranch, hobjs, he, fuzzyBranch, hf]
    · simp [semBranch, hobjs, he]

/-- Witness for C3 (amended): the rewritten text `short text` has fewer
than 4 words, yet the semantic call happens. -/
theorem C3_semantic_always_called_witness :
    wordCount "short text" < 4 ∧
    (process_query_api envC3 "explain goodwill").semCalled = true :=
  ⟨by decide,
   C3_semantic_always_called envC3 "explain goodwill" "short text"
     (by decide) (by decide) rfl⟩

/-- C4 (counterexample): the spelling corrector of `envC4` turns the typo
`%tyj` into `%tyk` and the router then takes the Direct Filter branch for
`%tyj` — so spelling correction is applied to the query text before the
command-table lookup; with an identity corrector the same input misses
the table and falls through to the rewrite cascade instead. -/
theorem C4_correction_before_lookup_counterexample :
    okMethod (process_query_api envC4 "%tyj").outcome = some "Direct Filter" ∧
    (process_query_api envC4 "%tyj").outcome =
      ApiOutcome.ok "Direct Filter" none [project recTyk] ∧
    okMethod (process_query_api envId4 "%tyj").outcome = some "No Match" ∧
    (process_query_api envId4 "%tyj").rewriteCalled = true := by
  decide

/-- C4 (amended): spelling correction is applied to every incoming query
before the command-table lookup (the lookup key is the corrected,
lowercased text); within the Direct Filter branch itself no rewriting and
no semantic call happen and the query is not rewritten further. -/
theorem C4_direct_filter_no_rewrite (env : Env) (q : String) (fs : List String)
    (hlk : command_filters.lookup (pyLower (rawOf env q)) = some fs) :
    okMethod (process_query_api env q).outcome = some "Direct Filter" ∧
    (process_query_api env q).rewriteCalled = false ∧
    (process_query_api env q).semCalled = false := by
  rw [process_eq_direct env q fs hlk]
  exact ⟨rfl, rfl, rfl⟩

/-- Witness for C4 (amended) at the corrected typo `%tyj` of `envC4`. -/
theorem C4_direct_filter_no_rewrite_witness :
    okMethod (process_query_api envC4 "%tyj").outcome = some "Direct Filter" ∧
    (process_query_api envC4 "%tyj").rewriteCalled = false ∧
    (process_query_api envC4 "%tyj").semCalled = false :=
  C4_direct_filter_no_rewrite envC4 "%tyj" ["test your knowledge"] (by decide)

/-- C7 (counterexample): a failing rewriter call is not caught — the
exception escapes `process_query_api` uncaught, the pipeline does not
continue to any fallback, and nothing is logged. -/
theorem C7_rewriter_error_counterexample :
    (process_query_api envC7 "explain goodwill").outcome =
      ApiOutcome.uncaught "rate limited" ∧
    (process_query_api envC7 "explain goodwill").semCalled = false ∧
    (process_query_api envC7 "explain goodwill").audit = [] := by
  decide

/-- C7 (amended): for every query that reaches the rewriting step, if the
Query Rewriter call fails, the error is not caught: the exception
propagates out of the handler, no fallback branch runs, no semantic call
is made, and no audit row is written. -/
theorem C7_rewriter_error_uncaught (env : Env) (q e : String)
    (hlk : command_filters.lookup (pyLower (rawOf env q)) = none)
    (hh : startsHash (rawOf env q) = false)
    (hrw : env.rewrite_query (env.correct_spelling (rawOf env q)) = .error e) :
    process_query_api env q =
      ⟨ApiOutcome.uncaught e, [], true, false⟩ := by
  rw [process_eq_rewrite env q hlk hh]
  simp [rewriteStep, hrw]

/-- Witness for C7 (amended) at `envC7`. -/
theorem C7_rewriter_error_uncaught_witness :
    process_query_api envC7 "explain goodwill" =
      ⟨ApiOutcome.uncaught "rate limited", [], true, false⟩ :=
  C7_rewriter_error_uncaught envC7 "explain goodwill" "rate limited"
    (by decide) (by decide) rfl

lemma hashtagBranch_congr (env : Env) (raw1 raw2 : String)
    (h : (expand_variants (env.correct_spelling (strTail raw1))).map hashNorm =
         (expand_variants (env.correct_spelling (strTail raw2))).map hashNorm) :
    hashtagBranch env raw1 = hashtagBranch env raw2 := by
  have hfilter : ∀ o ∈ env.objects.take 1000,
      (expand_variants (env.correct_spelling (strTail raw1))).any
        (fun v => pyIn (hashNorm v) (hashNorm (pyLower o.question))) =
      (expand_variants (env.correct_spelling (strTail raw2))).any
        (fun v => pyIn (hashNorm v) (hashNorm (pyLower o.question))) := by
    intro o _
    have hg := congrArg
      (fun l : List String => l.any (fun nv => pyIn nv (hashNorm (pyLower o.question)))) h
    simpa [List.any_map, Function.comp] using hg
  simp only [hashtagBranch]
  rw [List.filter_congr hfilter]

/-- C5 (counterexample): `#1-250` does not produce the same variant set
as `#1,250` — `1 250` is a variant of the former only — and against a
backend holding a record whose question text contains the literal
`1-250`, the query `#1-250` matches the record while `#1,250` matches
nothing, so the result sets differ as well. -/
theorem C5_variant_counterexample :
    ("1 250" ∈ expand_variants "1-250" ∧ "1 250" ∉ expand_variants "1,250") ∧
    (process_query_api envC5 "#1-250").outcome =
      ApiOutcome.ok "Hashtag" none [project recQ] ∧
    (process_query_api envC5 "#1,250").outcome =
      ApiOutcome.ok "Hashtag" none [] := by
  decide

/-- C5 (amended): `#1,250` and `#1250` (but not `#1-250`) are
interchangeable: whenever the corrected query texts are `#1,250` and
`#1250` and the spelling corrector leaves the stripped numeric terms
unchanged, the two invocations return identical results against any
backend state — their variant sets have identical normalised forms. -/
theorem C5_comma_variants_equal (env : Env) (q1 q2 : String)
    (h1 : rawOf env q1 = "#1,250") (h2 : rawOf env q2 = "#1250")
    (hc1 : env.correct_spelling "1,250" = "1,250")
    (hc2 : env.correct_spelling "1250" = "1250") :
    process_query_api env q1 = process_query_api env q2 := by
  have e1 : strTail "#1,250" = "1,250" := by decide
  have e2 : strTail "#1250" = "1250" := by decide
  rw [process_eq_hashtag env q1 (by rw [h1]; decide) (by rw [h1]; decide),
      process_eq_hashtag env q2 (by rw [h2]; decide) (by rw [h2]; decide), h1, h2]
  refine hashtagBranch_congr env "#1,250" "#1250" ?_
  rw [e1, e2, hc1, hc2]
  decide

/-- Witness for C5 (amended): with an identity spelling corrector and one
stored record, `#1,250` and `#1250` give the same pipeline result. -/
theorem C5_comma_variants_equal_witness :
    process_query_api envC5 "#1,250" = process_query_api envC5 "#1250" :=
  C5_comma_variants_equal envC5 "#1,250" "#1250" rfl rfl rfl rfl

/-- C6 (counterexample): the Fuzzy branch returns two distinct records
with byte-identical (hence identically normalised) question text — both
appear in the response, so no deduplication by normalised question text
happens before returning, and no ranking reorders them. -/
theorem C6_no_dedup_counterexample :
    okMatches (process_query_api envC6 "explain stock").outcome =
      [project recD, project recD2] ∧
    pyLower (pyStrip recD.question) = pyLower (pyStrip recD2.question) ∧
    project recD ≠ project recD2 := by
  decide

/-- C6 (amended): no merging, deduplication or ranking is performed: the
Fuzzy branch returns exactly the tag-matching records, in backend order,
truncated to the first 10 and projected — records with identical
normalised question text are all retained. -/
theorem C6_no_dedup_amended (env : Env) (q rw : String)
    (hlk : command_filters.lookup (pyLower (rawOf env q)) = none)
    (hh : startsHash (rawOf env q) = false)
    (hrw : env.rewrite_query (env.correct_spelling (rawOf env q)) = .ok rw)
    (hnt : env.near_text rw = .ok ([] : List QuestionRecord))
    (hne : (fuzzyFiltered env (rawOf env q)).isEmpty = false) :
    okMatches (process_query_api env q).outcome =
      ((fuzzyFiltered env (rawOf env q)).take 10).map project ∧
    okMethod (process_query_api env q).outcome = some "Fuzzy" := by
  rw [process_eq_rewrite env q hlk hh]
  simp [rewriteStep, hrw, semBranch, hnt, fuzzyBranch, hne, okMatches, okMethod]

/-- Witness for C6 (amended) at `envC6`, whose Fuzzy output keeps both
records sharing one question text. -/
theorem C6_no_dedup_amended_witness :
    okMatches (process_query_api envC6 "explain stock").outcome =
      ((fuzzyFiltered envC6 (rawOf envC6 "explain stock")).take 10).map project :=
  (C6_no_dedup_amended envC6 "explain stock" "rw text"
    (by decide) (by decide) rfl rfl (by decide)).1

/-- C9: in the Fuzzy branch the audit row records the full pre-truncation
match count while the response holds at most 10 records (exactly
`min 10 count`), so whenever more than 10 records match, the logged count
strictly exceeds the number of records returned. -/
theorem C9_fuzzy_logged_count (env : Env) (q rw : String)
    (hlk : command_filters.lookup (pyLower (rawOf env q)) = none)
    (hh : startsHash (rawOf env q) = false)
    (hrw : env.rewrite_query (env.correct_spelling (rawOf env q)) = .ok rw)
    (hnt : env.near_text rw = .ok ([] : List QuestionRecord))
    (hne : (fuzzyFiltered env (rawOf env q)).isEmpty = false) :
    (process_query_api env q).audit =
      [⟨rawOf env q, rw, "Fuzzy", (fuzzyFiltered env (rawOf env q)).length⟩] ∧
    (okMatches (process_query_api env q).outcome).length =
      min 10 (fuzzyFiltered env (rawOf env q)).length ∧
    (10 < (fuzzyFiltered env (rawOf env q)).length →
      (okMatches (process_query_api env q).outcome).length <
        (fuzzyFiltered env (rawOf env q)).length) := by
  rw [process_eq_rewrite env q hlk hh]
  simp only [rewriteStep, hrw, semBranch, hnt]
  refine ⟨?_, ?_, ?_⟩
  · simp [fuzzyBranch, hne]
  · simp [fuzzyBranch, hne, okMatches, List.length_take]
  · intro h10
    have hm : min 10 (fuzzyFiltered env (rawOf env q)).length = 10 :=
      min_eq_left (le_of_lt h10)
    simp [fuzzyBranch, hne, okMatches, List.length_take, hm]
    exact h10

/-- Witness for C9: a backend state with 11 matching records logs count
11 while returning 10 records. -/
theorem C9_fuzzy_logged_count_witness :
    (fuzzyFiltered envC9 (rawOf envC9 "explain stock")).length = 11 ∧
    (process_query_api envC9 "explain stock").audit =
      [⟨rawOf envC9 "explain stock", "rw text", "Fuzzy",
        (fuzzyFiltered envC9 (rawOf envC9 "explain stock")).length⟩] ∧
    (okMatches (process_query_api envC9 "explain stock").outcome).length <
      (fuzzyFiltered envC9 (rawOf envC9 "explain stock")).length :=
  ⟨by decide,
   (C9_fuzzy_logged_count envC9 "explain stock" "rw text"
     (by decide) (by decide) rfl rfl (by decide)).1,
   (C9_fuzzy_logged_count envC9 "explain stock" "rw text"
     (by decide) (by decide) rfl rfl (by decide)).2.2 (by decide)⟩

lemma process_matches_shape (env : Env) (q : String) :
    ∃ l : List QuestionRecord,
      okMatches (process_query_api env q).outcome = l.map project := by
  rcases Option.eq_none_or_eq_some
      (command_filters.lookup (pyLower (rawOf env q))) with hlk | ⟨fs, hlk⟩
  · rcases Bool.eq_false_or_eq_true (startsHash (rawOf env q)) with hh | hh
    · rw [process_eq_hashtag env q hlk hh]
      exact ⟨(env.objects.take 1000).filter (fun o =>
          (expand_variants (env.correct_spelling (strTail (rawOf env q)))).any
            (fun v => pyIn (hashNorm v) (hashNorm (pyLower o.question)))),
        by simp [hashtagBranch, okMatches]⟩
    · rw [process_eq_rewrite env q hlk hh]
      rcases exceptEq (env.rewrite_query (env.correct_spelling (rawOf env q))) with
        ⟨m, hm⟩ | ⟨rw0, hrw⟩
      · exact ⟨[], by simp [rewriteStep, hm, okMatches]⟩
      · simp only [rewriteStep, hrw]
        rcases exceptEq (env.near_text rw0) with ⟨m, hm⟩ | ⟨objs, hobjs⟩
        · exact ⟨[], by simp [semBranch, hm, okMatches]⟩
        · rcases Bool.eq_false_or_eq_true objs.isEmpty with he | he
          · rcases Bool.eq_false_or_eq_true (fuzzyFiltered env (rawOf env q)).isEmpty with
              hf | hf
            · exact ⟨[], by simp [semBranch, hobjs, he, fuzzyBranch, hf, okMatches]⟩
            · exact ⟨(fuzzyFiltered env (rawOf env q)).take 10,
                by simp [semBranch, hobjs, he, fuzzyBranch, hf, okMatches]⟩
          · exact ⟨objs, by simp [semBranch, hobjs, he, okMatches]⟩
  · rw [process_eq_direct env q fs hlk]
    exact ⟨(env.objects.take 1000).filter (fun o =>
        fs.any (fun f => pyIn f (pyLower o.sourceDetails))),
      by simp [directBranch, okMatches]⟩

/-- C10: every record in the endpoint's response, on every branch, is
projected to exactly the keys `chapter`, `sourceDetails`, `sourceType`,
`conceptTested`, `conceptSummary`, `question`, `answer`,
`howToApproach`; in particular `tags` and `combinedText` never appear in
the client-facing payload. -/
theorem C10_response_projection (env : Env) (q : String)
    (m : List (String × String))
    (hm : m ∈ okMatches (process_query_api env q).outcome) :
    m.map Prod.fst = projKeys ∧
    "tags" ∉ m.map Prod.fst ∧ "combinedText" ∉ m.map Prod.fst := by
  obtain ⟨l, hl⟩ := process_matches_shape env q
  rw [hl] at hm
  obtain ⟨o, ho, rfl⟩ := List.mem_map.mp hm
  have hkeys : (project o).map Prod.fst = projKeys := rfl
  rw [hkeys]
  exact ⟨rfl, by decide, by decide⟩

/-- Witness for C10 on the Direct Filter branch of `envC10`. -/
theorem C10_response_projection_witness :
    project recD ∈ okMatches (process_query_api envC10 "%all").outcome ∧
    ((project recD).map Prod.fst = projKeys ∧
      "tags" ∉ (project recD).map Prod.fst ∧
      "combinedText" ∉ (project recD).map Prod.fst) :=
  ⟨by decide, C10_response_projection envC10 "%all" (project recD) (by decide)⟩

